import Mathlib

set_option maxRecDepth 100000
set_option maxHeartbeats 2000000

/-!
Verification development for the DStudio maintenance scripts
(`add_cost_metrics.py`, `add_pipeline.py`, `add_splash_screen.py`,
`add_to_build_phase.py`, `add_files_to_project.py`).

Documents are modelled as `List Char` (Python strings).  The scripts edit the
document with `re.sub`; every regular expression they use is a sequence of
literal runs, `\s*` gaps, and greedy one-or-more character classes (`[^*]+`,
`[^}]+`, `[^)]+`), wrapped in capture groups.  The engine below implements
exactly this fragment with Python's leftmost scan and greedy backtracking
semantics, and each script is transliterated pattern-by-pattern on top of it.
Identifier strings (the `uuid4().hex` draws) are parameters of the
transliterated scripts, since the scripts use them only as opaque text.
-/

/-- One token of the regex fragment used by the scripts: a literal run,
a greedy one-or-more character class, or a greedy zero-or-more class. -/
inductive Tok where
  | lit : List Char → Tok
  | plus : (Char → Bool) → Tok
  | star : (Char → Bool) → Tok

/-- A pattern: a sequence of capture groups (each a token sequence) followed
by an uncaptured tail, mirroring shapes such as `(...)` and `(...)(...)\);`. -/
structure Pat where
  groups : List (List Tok)
  tail : List Tok

/-- Length of the maximal prefix of `s` whose characters satisfy `p`. -/
def runLen (p : Char → Bool) : List Char → Nat
  | [] => 0
  | c :: r => if p c then runLen p r + 1 else 0

/-- Boolean prefix test: `isPre p s` holds when `p` is a prefix of `s`. -/
def isPre : List Char → List Char → Bool
  | [], _ => true
  | _ :: _, [] => false
  | a :: as, b :: bs => a = b && isPre as bs

/-- All splits `(m, r)` with `s = m ++ r` that one token can match, in the
engine's preference order (greedy: longest first). -/
def tokSplits : Tok → List Char → List (List Char × List Char)
  | .lit l, s => if isPre l s then [(l, s.drop l.length)] else []
  | .plus p, s => ((List.range (runLen p s)).reverse.map (fun i => i + 1)).map
      (fun k => (s.take k, s.drop k))
  | .star p, s => ((List.range (runLen p s + 1)).reverse).map
      (fun k => (s.take k, s.drop k))

/-- All splits a token sequence can match, in backtracking preference order. -/
def seqSplits : List Tok → List Char → List (List Char × List Char)
  | [], s => [([], s)]
  | t :: ts, s => (tokSplits t s).flatMap
      (fun p => (seqSplits ts p.2).map (fun q => (p.1 ++ q.1, q.2)))

/-- All ways the capture groups can match a prefix of `s`: the captured texts
together with the remainder, in backtracking preference order. -/
def groupSplits : List (List Tok) → List Char → List (List (List Char) × List Char)
  | [], s => [([], s)]
  | g :: gs, s => (seqSplits g s).flatMap
      (fun p => (groupSplits gs p.2).map (fun q => (p.1 :: q.1, q.2)))

/-- Match a pattern at the start of `s`.  Returns the captured texts, the text
matched by the tail, and the remainder, for the first alternative in
backtracking order — exactly the alternative Python's engine commits to. -/
def matchPat (pt : Pat) (s : List Char) :
    Option (List (List Char) × List Char × List Char) :=
  ((groupSplits pt.groups s).flatMap
    (fun p => (seqSplits pt.tail p.2).map (fun q => (p.1, q.1, q.2)))).head?

/-- Tail-recursive list length (accumulator form, so that evaluation inside
the proof checker stays iterative). -/
def lenAux (n : Nat) : List Char → Nat
  | [] => n
  | _ :: r => lenAux (n + 1) r

/-- Length of a character list. -/
def len (s : List Char) : Nat := lenAux 0 s

/-- Fuelled scan for `re.sub`: at each position try the pattern; on a match
emit the replacement and continue after the matched text.  The fuel only
serves structural recursion; with fuel `> len s` it never runs out,
because every match of the scripts' patterns consumes at least one
character (the guard enforces this). -/
def subAllF (pt : Pat) (repl : List (List Char) → List Char) :
    Nat → List Char → List Char
  | 0, s => s
  | _ + 1, [] => []
  | fuel + 1, c :: rest =>
    match matchPat pt (c :: rest) with
    | some (caps, _, rem) =>
      if len rem < len rest + 1 then repl caps ++ subAllF pt repl fuel rem
      else c :: subAllF pt repl fuel rest
    | none => c :: subAllF pt repl fuel rest

/-- `re.sub`: scan left to right over the whole document. -/
def subAll (pt : Pat) (repl : List (List Char) → List Char) (s : List Char) :
    List Char :=
  subAllF pt repl (len s + 1) s

/-- Does the pattern match at some position of `s`?  (`re.search`-style.) -/
def hasMatch (pt : Pat) : List Char → Bool
  | [] => (matchPat pt []).isSome
  | c :: rest => (matchPat pt (c :: rest)).isSome || hasMatch pt rest

/-- Python `\s`: the whitespace class. -/
def pySpace (c : Char) : Bool :=
  c = ' ' || c = '\t' || c = '\n' || c = '\r' || c = '\x0b' || c = '\x0c'

/-- `[^*]`. -/
def notStar (c : Char) : Bool := !(c = '*')

/-- `[^}]`. -/
def notRBrace (c : Char) : Bool := !(c = '\x7d')

/-- `[^)]`. -/
def notRParen (c : Char) : Bool := !(c = ')')

/-- Capture group 1 (`\1`) of a match. -/
def g1 (caps : List (List Char)) : List Char := caps.getD 0 []

/-- Capture group 2 (`\2`) of a match. -/
def g2 (caps : List (List Char)) : List Char := caps.getD 1 []

/-- Boolean substring test. -/
def hasSub (p : List Char) : List Char → Bool
  | [] => p.isEmpty
  | c :: rest => isPre p (c :: rest) || hasSub p rest

/-- Number of positions of `s` at which `p` occurs. -/
def countSub (p : List Char) : List Char → Nat
  | [] => if p.isEmpty then 1 else 0
  | c :: rest => (if isPre p (c :: rest) then 1 else 0) + countSub p rest

/-- Number of occurrences of the character `c`. -/
def cnt (c : Char) : List Char → Nat
  | [] => 0
  | a :: rest => (if a = c then 1 else 0) + cnt c rest

/-- Suffix of `s` strictly after the first occurrence of `p` (`[]` if none). -/
def afterSub (p : List Char) : List Char → List Char
  | [] => []
  | c :: rest => if isPre p (c :: rest) then (c :: rest).drop p.length
      else afterSub p rest

/-- Prefix of `s` before the first occurrence of `p` (`s` itself if none). -/
def upToSub (p : List Char) : List Char → List Char
  | [] => []
  | c :: rest => if isPre p (c :: rest) then [] else c :: upToSub p rest

/-! ## The patterns and templates of `add_cost_metrics.py` -/

/-- `r'(1A000055 /\* Services \*/ = \{\s*isa = PBXGroup;\s*children = \(\s*1A00007D /\* StoreManager\.swift \*/,)'` -/
def servicesGroupPat : Pat :=
  ⟨[[.lit ("1A000055 /* Services */ = \x7b").data, .star pySpace,
     .lit ("isa = PBXGroup;").data, .star pySpace,
     .lit ("children = (").data, .star pySpace,
     .lit ("1A00007D /* StoreManager.swift */,").data]], []⟩

/-- `r'(/\* End PBXFileReference section \*/)'` -/
def fileRefSentPat : Pat :=
  ⟨[[.lit ("/* End PBXFileReference section */").data]], []⟩

/-- `r'(/\* End PBXBuildFile section \*/)'` -/
def buildFileSentPat : Pat :=
  ⟨[[.lit ("/* End PBXBuildFile section */").data]], []⟩

/-- `r'(1A000064 /\* Sources \*/ = \{\s*isa = PBXSourcesBuildPhase;\s*buildActionMask = 2147483647;\s*files = \(\s*1A000003 /\* ContentView\.swift in Sources \*/,)'` -/
def sourcesAnchorPat : Pat :=
  ⟨[[.lit ("1A000064 /* Sources */ = \x7b").data, .star pySpace,
     .lit ("isa = PBXSourcesBuildPhase;").data, .star pySpace,
     .lit ("buildActionMask = 2147483647;").data, .star pySpace,
     .lit ("files = (").data, .star pySpace,
     .lit ("1A000003 /* ContentView.swift in Sources */,").data]], []⟩

/-- The `file_ref` template of `add_cost_metrics.py` (f-string with the
braces of the manifest record written out). -/
def costFileRef (cost_uuid : List Char) : List Char :=
  ("\n\t\t1A0000").data ++ cost_uuid.take 6 ++
  (" /* CostMetricsManager.swift */ = \x7bisa = PBXFileReference; lastKnownFileType = sourcecode.swift; path = CostMetricsManager.swift; sourceTree = \"<group>\"; \x7d;").data

/-- The `build_file` template of `add_cost_metrics.py`. -/
def costBuildFile (cost_build_uuid cost_uuid : List Char) : List Char :=
  ("\n\t\t1A0000").data ++ cost_build_uuid.take 6 ++
  (" /* CostMetricsManager.swift in Sources */ = \x7bisa = PBXBuildFile; fileRef = 1A0000").data ++
  cost_uuid.take 6 ++ (" /* CostMetricsManager.swift */; \x7d;").data

/-- `services_replacement`: `\1` followed by the new group child line. -/
def servicesRepl (cost_uuid : List Char) (caps : List (List Char)) : List Char :=
  g1 caps ++ ("\n\t\t\t1A0000").data ++ cost_uuid.take 6 ++
  (" /* CostMetricsManager.swift */,").data

/-- `sources_replacement` of `add_cost_metrics.py`. -/
def costSourcesRepl (cost_build_uuid : List Char) (caps : List (List Char)) :
    List Char :=
  g1 caps ++ ("\n\t\t\t1A0000").data ++ cost_build_uuid.take 6 ++
  (" /* CostMetricsManager.swift in Sources */,").data

/-- The in-memory transformation of `add_cost_metrics.py`: the four `re.sub`
calls applied in program order.  `cost_uuid` and `cost_build_uuid` are the two
`uuid4` hex draws (the script truncates them with `[:6]`). -/
def add_cost_metrics (cost_uuid cost_build_uuid content : List Char) : List Char :=
  let c1 := subAll servicesGroupPat (servicesRepl cost_uuid) content
  let c2 := subAll fileRefSentPat
    (fun _ => costFileRef cost_uuid ++ ("\n\n/* End PBXFileReference section */").data) c1
  let c3 := subAll sourcesAnchorPat (costSourcesRepl cost_build_uuid) c2
  subAll buildFileSentPat
    (fun _ => costBuildFile cost_build_uuid cost_uuid ++ ("\n\n/* End PBXBuildFile section */").data) c3

/-! ## The patterns and templates of `add_splash_screen.py` -/

/-- `r'(1A000053 /\* Components \*/ = \{\s*isa = PBXGroup;\s*children = \(\s*1A000035 /\* SceneCard\.swift \*/,)'` -/
def componentsGroupPat : Pat :=
  ⟨[[.lit ("1A000053 /* Components */ = \x7b").data, .star pySpace,
     .lit ("isa = PBXGroup;").data, .star pySpace,
     .lit ("children = (").data, .star pySpace,
     .lit ("1A000035 /* SceneCard.swift */,").data]], []⟩

/-- The `file_ref` template of `add_splash_screen.py` (quoted path). -/
def splashFileRef (splash_uuid : List Char) : List Char :=
  ("\n\t\t1A0000").data ++ splash_uuid.take 6 ++
  (" /* SplashScreenView.swift */ = \x7bisa = PBXFileReference; lastKnownFileType = sourcecode.swift; path = \"DirectorStudio/Components/SplashScreenView.swift\"; sourceTree = \"<group>\"; \x7d;").data

/-- The `build_file` template of `add_splash_screen.py`. -/
def splashBuildFile (splash_build_uuid splash_uuid : List Char) : List Char :=
  ("\n\t\t1A0000").data ++ splash_build_uuid.take 6 ++
  (" /* SplashScreenView.swift in Sources */ = \x7bisa = PBXBuildFile; fileRef = 1A0000").data ++
  splash_uuid.take 6 ++ (" /* SplashScreenView.swift */; \x7d;").data

/-- `components_replacement`: `\1` followed by the new group child line. -/
def componentsRepl (splash_uuid : List Char) (caps : List (List Char)) : List Char :=
  g1 caps ++ ("\n\t\t\t1A0000").data ++ splash_uuid.take 6 ++
  (" /* SplashScreenView.swift */,").data

/-- `sources_replacement` of `add_splash_screen.py`. -/
def splashSourcesRepl (splash_build_uuid : List Char) (caps : List (List Char)) :
    List Char :=
  g1 caps ++ ("\n\t\t\t1A0000").data ++ splash_build_uuid.take 6 ++
  (" /* SplashScreenView.swift in Sources */,").data

/-- The in-memory transformation of `add_splash_screen.py`: its four `re.sub`
calls in program order. -/
def add_splash_screen (splash_uuid splash_build_uuid content : List Char) :
    List Char :=
  let c1 := subAll componentsGroupPat (componentsRepl splash_uuid) content
  let c2 := subAll fileRefSentPat
    (fun _ => splashFileRef splash_uuid ++ ("\n\n/* End PBXFileReference section */").data) c1
  let c3 := subAll sourcesAnchorPat (splashSourcesRepl splash_build_uuid) c2
  subAll buildFileSentPat
    (fun _ => splashBuildFile splash_build_uuid splash_uuid ++ ("\n\n/* End PBXBuildFile section */").data) c3

/-! ## The patterns and templates of `add_pipeline.py` -/

/-- `r'(1A000056 /\* Modules \*/ = \{\s*isa = PBXGroup;\s*children = \(\s*1A00007F /\* ContinuityEngine\.swift \*/,)'` -/
def modulesGroupPat56 : Pat :=
  ⟨[[.lit ("1A000056 /* Modules */ = \x7b").data, .star pySpace,
     .lit ("isa = PBXGroup;").data, .star pySpace,
     .lit ("children = (").data, .star pySpace,
     .lit ("1A00007F /* ContinuityEngine.swift */,").data]], []⟩

/-- The anchor on the pre-existing `PBXBuildFile` record `1A000019`:
`r'(1A000019 /\* [^*]+ \*/ = \{isa = PBXBuildFile; fileRef = [^}]+;\};)'`.
This pattern is used by `add_pipeline.py` (under the name `sources_pattern`)
and twice per file by `add_files_to_project.py`. -/
def bf19Pat : Pat :=
  ⟨[[.lit ("1A000019 /* ").data, .plus notStar,
     .lit (" */ = \x7bisa = PBXBuildFile; fileRef = ").data, .plus notRBrace,
     .lit (";\x7d;").data]], []⟩

/-- The `file_ref` template of `add_pipeline.py`. -/
def pipelineFileRef (pipeline_uuid : List Char) : List Char :=
  ("\n\t\t1A0000").data ++ pipeline_uuid.take 6 ++
  (" /* DirectorStudioPipeline.swift */ = \x7bisa = PBXFileReference; lastKnownFileType = sourcecode.swift; path = DirectorStudioPipeline.swift; sourceTree = \"<group>\"; \x7d;").data

/-- The `build_file` template of `add_pipeline.py`. -/
def pipelineBuildFile (pipeline_build_uuid pipeline_uuid : List Char) : List Char :=
  ("\n\t\t1A0000").data ++ pipeline_build_uuid.take 6 ++
  (" /* DirectorStudioPipeline.swift in Sources */ = \x7bisa = PBXBuildFile; fileRef = 1A0000").data ++
  pipeline_uuid.take 6 ++ (" /* DirectorStudioPipeline.swift */; \x7d;").data

/-- `modules_replacement` of `add_pipeline.py`. -/
def modulesRepl56 (pipeline_uuid : List Char) (caps : List (List Char)) : List Char :=
  g1 caps ++ ("\n\t\t\t1A0000").data ++ pipeline_uuid.take 6 ++
  (" /* DirectorStudioPipeline.swift */,").data

/-- The in-memory transformation of `add_pipeline.py`: its three `re.sub`
calls in program order.  Note the third call (named `sources_pattern` in the
script) is anchored on the `PBXBuildFile` record `1A000019`, not on the
`PBXSourcesBuildPhase` files list. -/
def add_pipeline (pipeline_uuid pipeline_build_uuid content : List Char) :
    List Char :=
  let c1 := subAll modulesGroupPat56 (modulesRepl56 pipeline_uuid) content
  let c2 := subAll fileRefSentPat
    (fun _ => pipelineFileRef pipeline_uuid ++ ("\n\n/* End PBXFileReference section */").data) c1
  subAll bf19Pat (fun caps => g1 caps ++ pipelineBuildFile pipeline_build_uuid pipeline_uuid) c2

/-! ## The templates and loop of `add_to_build_phase.py` -/

/-- The `files_to_add` list of `add_to_build_phase.py`: display name and the
pre-existing file-reference identifier for each file. -/
def buildPhaseFiles : List (List Char × List Char) :=
  [(("Models.swift").data, ("1A00002835AC").data),
   (("DirectorStudioPipeline.swift").data, ("1A0000283F20").data),
   (("StoryAnalyzerModule.swift").data, ("1A0000E67026").data),
   (("PromptSegmentationModule.swift").data, ("1A0000C6ABE6").data),
   (("PromptPackagingModule.swift").data, ("1A0000760A32").data)]

/-- The `build_file` template of `add_to_build_phase.py`. -/
def atbpBuildFile (build_uuid file_name file_ref_id : List Char) : List Char :=
  ("\n\t\t1A0000").data ++ build_uuid.take 6 ++ (" /* ").data ++ file_name ++
  (" in Sources */ = \x7bisa = PBXBuildFile; fileRef = ").data ++ file_ref_id ++
  (" /* ").data ++ file_name ++ (" */; \x7d;").data

/-- `sources_replacement` of `add_to_build_phase.py`. -/
def atbpSourcesRepl (build_uuid file_name : List Char) (caps : List (List Char)) :
    List Char :=
  g1 caps ++ ("\n\t\t\t1A0000").data ++ build_uuid.take 6 ++ (" /* ").data ++
  file_name ++ (" in Sources */,").data

/-- One iteration of the `add_to_build_phase.py` loop: the two `re.sub` calls
for one file. -/
def atbpStep (file_name file_ref_id build_uuid content : List Char) : List Char :=
  let c1 := subAll sourcesAnchorPat (atbpSourcesRepl build_uuid file_name) content
  subAll buildFileSentPat
    (fun _ => atbpBuildFile build_uuid file_name file_ref_id ++ ("\n\n/* End PBXBuildFile section */").data) c1

/-- The in-memory transformation of `add_to_build_phase.py`: the loop over
`files_to_add`, with one `uuid4` draw per file supplied in `build_uuids`. -/
def add_to_build_phase (build_uuids : List (List Char)) (content : List Char) :
    List Char :=
  (buildPhaseFiles.zip build_uuids).foldl
    (fun c p => atbpStep p.1.1 p.1.2 p.2 c) content

/-! ## The patterns, templates and loop of `add_files_to_project.py` -/

/-- `r'(1A000052 /\* Core \*/ = \{[^}]+children = \([^)]+)([^)]+)\);'` -/
def coreGroupPat : Pat :=
  ⟨[[.lit ("1A000052 /* Core */ = \x7b").data, .plus notRBrace,
     .lit ("children = (").data, .plus notRParen],
    [.plus notRParen]],
   [.lit (");").data]⟩

/-- `r'(1A000053 /\* Modules \*/ = \{[^}]+children = \([^)]+)([^)]+)\);'` -/
def modulesGroupPat53 : Pat :=
  ⟨[[.lit ("1A000053 /* Modules */ = \x7b").data, .plus notRBrace,
     .lit ("children = (").data, .plus notRParen],
    [.plus notRParen]],
   [.lit (");").data]⟩

/-- The `file_ref_section` template of `add_files_to_project.py` for a file
named `file_name`. -/
def ftpFileRef (file_uuid file_name : List Char) : List Char :=
  ("\n\t\t1A0000").data ++ file_uuid.take 6 ++ (" /* ").data ++ file_name ++
  (" */ = \x7bisa = PBXFileReference; lastKnownFileType = sourcecode.swift; path = ").data ++
  file_name ++ ("; sourceTree = \"<group>\"; \x7d;").data

/-- The `build_phase_section` template of `add_files_to_project.py`. -/
def ftpBuildFile (build_uuid file_uuid file_name : List Char) : List Char :=
  ("\n\t\t1A0000").data ++ build_uuid.take 6 ++ (" /* ").data ++ file_name ++
  (" in Sources */ = \x7bisa = PBXBuildFile; fileRef = 1A0000").data ++
  file_uuid.take 6 ++ (" /* ").data ++ file_name ++ (" */; \x7d;").data

/-- `core_replacement` / `modules_replacement`: `\1\2` then the child line
and the restored `);` terminator. -/
def ftpGroupRepl (file_uuid file_name : List Char) (caps : List (List Char)) :
    List Char :=
  g1 caps ++ g2 caps ++ ("\t\t1A0000").data ++ file_uuid.take 6 ++ (" /* ").data ++
  file_name ++ (" */,\n\t\t);").data

/-- One iteration of the `add_files_to_project.py` loop for a module file:
the group insertion and the two substitutions anchored on record `1A000019`. -/
def ftpModuleStep (file_name file_uuid build_uuid content : List Char) : List Char :=
  let c1 := subAll modulesGroupPat53 (ftpGroupRepl file_uuid file_name) content
  let c2 := subAll bf19Pat
    (fun caps => g1 caps ++ ftpBuildFile build_uuid file_uuid file_name) c1
  subAll bf19Pat (fun caps => g1 caps ++ ftpFileRef file_uuid file_name) c2

/-- The module files processed by the loop (`files_to_add[1:]`, basenames). -/
def ftpModuleFiles : List (List Char) :=
  [("StoryAnalyzerModule.swift").data,
   ("PromptSegmentationModule.swift").data,
   ("PromptPackagingModule.swift").data]

/-- The in-memory transformation of `add_files_to_project.py`: the
`Models.swift` insertions followed by the loop over the three module files.
`module_uuids` supplies the `(module_uuid, module_build_uuid)` draw pair of
each loop iteration. -/
def add_files_to_project (models_uuid models_build_uuid : List Char)
    (module_uuids : List (List Char × List Char)) (content : List Char) :
    List Char :=
  let c1 := subAll coreGroupPat (ftpGroupRepl models_uuid ("Models.swift").data) content
  let c2 := subAll bf19Pat
    (fun caps => g1 caps ++ ftpBuildFile models_build_uuid models_uuid ("Models.swift").data) c1
  let c3 := subAll bf19Pat
    (fun caps => g1 caps ++ ftpFileRef models_uuid ("Models.swift").data) c2
  (ftpModuleFiles.zip module_uuids).foldl
    (fun c p => ftpModuleStep p.1 p.2.1 p.2.2 c) c3

/-! ## A representative minimal manifest for the cost-metrics script -/

/-- A minimal manifest containing all four anchors targeted by
`add_cost_metrics.py`: both section sentinels, the `Services` group with the
`StoreManager.swift` child, and the `Sources` build phase with the
`ContentView.swift` entry. -/
def minDoc : List Char :=
  (("// !$*UTF8*$!\n" ++
    "/* Begin PBXBuildFile section */\n" ++
    "\t\t1A000003 /* ContentView.swift in Sources */ = \x7bisa = PBXBuildFile; fileRef = 1A000001 /* ContentView.swift */; \x7d;\n" ++
    "/* End PBXBuildFile section */\n\n" ++
    "/* Begin PBXFileReference section */\n" ++
    "\t\t1A000001 /* ContentView.swift */ = \x7bisa = PBXFileReference; path = ContentView.swift; \x7d;\n" ++
    "\t\t1A00007D /* StoreManager.swift */ = \x7bisa = PBXFileReference; path = StoreManager.swift; \x7d;\n" ++
    "/* End PBXFileReference section */\n\n" ++
    "\t\t1A000055 /* Services */ = \x7b\n" ++
    "\t\t\tisa = PBXGroup;\n" ++
    "\t\t\tchildren = (\n" ++
    "\t\t\t\t1A00007D /* StoreManager.swift */,\n" ++
    "\t\t\t);\n" ++
    "\t\t\x7d;\n" ++
    "\t\t1A000064 /* Sources */ = \x7b\n" ++
    "\t\t\tisa = PBXSourcesBuildPhase;\n" ++
    "\t\t\tbuildActionMask = 2147483647;\n" ++
    "\t\t\tfiles = (\n" ++
    "\t\t\t\t1A000003 /* ContentView.swift in Sources */,\n" ++
    "\t\t\t);\n" ++
    "\t\t\x7d;\n") : String).data

/-- A 24-character uppercase-hex draw, as `uuid4` produces. -/
def uuidA : List Char := ("ABCABCABCABCABCABCABCABC").data

/-- A second hex draw. -/
def uuidB : List Char := ("DEFDEFDEFDEFDEFDEFDEFDEF").data

/-- A third hex draw (second run of the cost-metrics script). -/
def uuidC : List Char := ("121212121212121212121212").data

/-- A fourth hex draw. -/
def uuidD : List Char := ("343434343434343434343434").data

/-- The minimal manifest targeted by `add_splash_screen.py`: both sentinels,
the `Components` group with the `SceneCard.swift` child first, and the
`Sources` build phase with the `ContentView.swift` entry first. -/
def minDocSplash : List Char :=
  (("// !$*UTF8*$!\n" ++
    "/* Begin PBXBuildFile section */\n" ++
    "\t\t1A000003 /* ContentView.swift in Sources */ = \x7bisa = PBXBuildFile; fileRef = 1A000001 /* ContentView.swift */; \x7d;\n" ++
    "/* End PBXBuildFile section */\n\n" ++
    "/* Begin PBXFileReference section */\n" ++
    "\t\t1A000001 /* ContentView.swift */ = \x7bisa = PBXFileReference; path = ContentView.swift; \x7d;\n" ++
    "\t\t1A000035 /* SceneCard.swift */ = \x7bisa = PBXFileReference; path = SceneCard.swift; \x7d;\n" ++
    "/* End PBXFileReference section */\n\n" ++
    "\t\t1A000053 /* Components */ = \x7b\n" ++
    "\t\t\tisa = PBXGroup;\n" ++
    "\t\t\tchildren = (\n" ++
    "\t\t\t\t1A000035 /* SceneCard.swift */,\n" ++
    "\t\t\t);\n" ++
    "\t\t\x7d;\n" ++
    "\t\t1A000064 /* Sources */ = \x7b\n" ++
    "\t\t\tisa = PBXSourcesBuildPhase;\n" ++
    "\t\t\tbuildActionMask = 2147483647;\n" ++
    "\t\t\tfiles = (\n" ++
    "\t\t\t\t1A000003 /* ContentView.swift in Sources */,\n" ++
    "\t\t\t);\n" ++
    "\t\t\x7d;\n") : String).data

/-- `minDoc` with the `Services` group removed: the group anchor of
`add_cost_metrics.py` does not match anywhere in it, while the other three
anchors (both sentinels and the `Sources` build phase) still do. -/
def docNoServices : List Char :=
  (("// !$*UTF8*$!\n" ++
    "/* Begin PBXBuildFile section */\n" ++
    "\t\t1A000003 /* ContentView.swift in Sources */ = \x7bisa = PBXBuildFile; fileRef = 1A000001 /* ContentView.swift */; \x7d;\n" ++
    "/* End PBXBuildFile section */\n\n" ++
    "/* Begin PBXFileReference section */\n" ++
    "\t\t1A000001 /* ContentView.swift */ = \x7bisa = PBXFileReference; path = ContentView.swift; \x7d;\n" ++
    "/* End PBXFileReference section */\n\n" ++
    "\t\t1A000064 /* Sources */ = \x7b\n" ++
    "\t\t\tisa = PBXSourcesBuildPhase;\n" ++
    "\t\t\tbuildActionMask = 2147483647;\n" ++
    "\t\t\tfiles = (\n" ++
    "\t\t\t\t1A000003 /* ContentView.swift in Sources */,\n" ++
    "\t\t\t);\n" ++
    "\t\t\x7d;\n") : String).data

/-- A manifest with a `PBXBuildFile` section and its sentinel but no
`Sources` build phase block: the sources anchor of `add_to_build_phase.py`
matches nowhere in it. -/
def docNoSources : List Char :=
  (("// !$*UTF8*$!\n" ++
    "/* Begin PBXBuildFile section */\n" ++
    "\t\t1A000003 /* ContentView.swift in Sources */ = \x7bisa = PBXBuildFile; fileRef = 1A000001 /* ContentView.swift */; \x7d;\n" ++
    "/* End PBXBuildFile section */\n\n" ++
    "/* Begin PBXFileReference section */\n" ++
    "\t\t1A000001 /* ContentView.swift */ = \x7bisa = PBXFileReference; path = ContentView.swift; \x7d;\n" ++
    "/* End PBXFileReference section */\n") : String).data

/-- Five hex draws for the `add_to_build_phase.py` loop. -/
def uuids5 : List (List Char) :=
  [("565656565656565656565656").data,
   ("676767676767676767676767").data,
   ("787878787878787878787878").data,
   ("898989898989898989898989").data,
   ("9A9A9A9A9A9A9A9A9A9A9A9A").data]

/-- `minDoc` with one more pre-existing file reference whose identifier is
`1A0000ABCABC` — exactly the identifier the cost-metrics script builds when
the random draw starts with `ABCABC`. -/
def docCollide : List Char :=
  (("// !$*UTF8*$!\n" ++
    "/* Begin PBXBuildFile section */\n" ++
    "\t\t1A000003 /* ContentView.swift in Sources */ = \x7bisa = PBXBuildFile; fileRef = 1A000001 /* ContentView.swift */; \x7d;\n" ++
    "/* End PBXBuildFile section */\n\n" ++
    "/* Begin PBXFileReference section */\n" ++
    "\t\t1A000001 /* ContentView.swift */ = \x7bisa = PBXFileReference; path = ContentView.swift; \x7d;\n" ++
    "\t\t1A00007D /* StoreManager.swift */ = \x7bisa = PBXFileReference; path = StoreManager.swift; \x7d;\n" ++
    "\t\t1A0000ABCABC /* Legacy.swift */ = \x7bisa = PBXFileReference; path = Legacy.swift; \x7d;\n" ++
    "/* End PBXFileReference section */\n\n" ++
    "\t\t1A000055 /* Services */ = \x7b\n" ++
    "\t\t\tisa = PBXGroup;\n" ++
    "\t\t\tchildren = (\n" ++
    "\t\t\t\t1A00007D /* StoreManager.swift */,\n" ++
    "\t\t\t);\n" ++
    "\t\t\x7d;\n" ++
    "\t\t1A000064 /* Sources */ = \x7b\n" ++
    "\t\t\tisa = PBXSourcesBuildPhase;\n" ++
    "\t\t\tbuildActionMask = 2147483647;\n" ++
    "\t\t\tfiles = (\n" ++
    "\t\t\t\t1A000003 /* ContentView.swift in Sources */,\n" ++
    "\t\t\t);\n" ++
    "\t\t\x7d;\n") : String).data

/-- A document in which the two sentinels overlap by one character: the
closing `*/` of the `PBXBuildFile` sentinel lends its `/` to the opening
`/*` of the `PBXFileReference` sentinel.  Both sentinels literally occur,
and the document has no braces at all, so it is trivially brace-balanced. -/
def docOverlap : List Char :=
  (("AA /* End PBXBuildFile section *" ++
    "/* End PBXFileReference section */ BB") : String).data

/-- A manifest for `add_pipeline.py` and `add_files_to_project.py`: its
`PBXBuildFile` section holds the anchor record `1A000019` (formatted exactly
as the `1A000019`-anchored pattern expects, with `;};` at the end), and it
has both sentinels and a `Sources` build phase with a files list. -/
def docBF19 : List Char :=
  (("/* Begin PBXBuildFile section */\n" ++
    "\t\t1A000019 /* App.swift in Sources */ = \x7bisa = PBXBuildFile; fileRef = 1A000018 /* App.swift */;\x7d;\n" ++
    "/* End PBXBuildFile section */\n" ++
    "/* Begin PBXFileReference section */\n" ++
    "\t\t1A000018 /* App.swift */ = \x7bisa = PBXFileReference; path = App.swift; \x7d;\n" ++
    "/* End PBXFileReference section */\n" ++
    "\t\t1A000064 /* Sources */ = \x7b\n" ++
    "\t\t\tisa = PBXSourcesBuildPhase;\n" ++
    "\t\t\tbuildActionMask = 2147483647;\n" ++
    "\t\t\tfiles = (\n" ++
    "\t\t\t\t1A000003 /* ContentView.swift in Sources */,\n" ++
    "\t\t\t);\n" ++
    "\t\t\x7d;\n") : String).data

/-- The full text of the pre-existing `1A000019` anchor record of `docBF19`. -/
def bf19Rec : List Char :=
  ("1A000019 /* App.swift in Sources */ = \x7bisa = PBXBuildFile; fileRef = 1A000018 /* App.swift */;\x7d;").data

/-- Hex draws for `add_pipeline.py`. -/
def uuidP : List Char := ("777777777777777777777777").data

/-- Second draw for `add_pipeline.py`. -/
def uuidPB : List Char := ("888888888888888888888888").data

/-- Draws for `add_files_to_project.py`: `Models.swift`. -/
def uuidM : List Char := ("111111111111111111111111").data

/-- Draws for `add_files_to_project.py`: `Models.swift` build file. -/
def uuidMB : List Char := ("222222222222222222222222").data

/-- Draw pairs for the three module files of `add_files_to_project.py`. -/
def moduleUuids : List (List Char × List Char) :=
  [(("333333333333333333333333").data, ("444444444444444444444444").data),
   (("555555555555555555555555").data, ("666666666666666666666666").data),
   (("ABABABABABABABABABABABAB").data, ("CDCDCDCDCDCDCDCDCDCDCDCD").data)]

/-! ## Section extraction and the spec-side parser -/

/-- Text of the `PBXFileReference` section of a manifest. -/
def fileRefSect (s : List Char) : List Char :=
  upToSub ("/* End PBXFileReference section */").data
    (afterSub ("/* Begin PBXFileReference section */").data s)

/-- Text of the `PBXBuildFile` section of a manifest. -/
def buildFileSect (s : List Char) : List Char :=
  upToSub ("/* End PBXBuildFile section */").data
    (afterSub ("/* Begin PBXBuildFile section */").data s)

/-- Contents of the first `children = (...)` list of a manifest. -/
def childrenSect (s : List Char) : List Char :=
  upToSub (");").data (afterSub ("children = (").data s)

/-- Contents of the first `files = (...)` list of a manifest. -/
def srcFilesSect (s : List Char) : List Char :=
  upToSub (");").data (afterSub ("files = (").data s)

/-- Modelled from the spec: the parse direction of the round-trip property
("parsing the patched document's affected sections back out must recover D's
display name and path exactly").  No parser exists in the scripts, so this
reader is built from the spec's record description
`<id> /* <label> */ = { isa = <Kind>; ...; path = <path>; ... };`:
the display name of the record with identifier `1A0000<id6>` is the text
between its `/* ` and ` */` markers inside the `PBXFileReference` section. -/
def parsedName (id6 s : List Char) : List Char :=
  upToSub (" */").data
    (afterSub (("1A0000").data ++ id6 ++ (" /* ").data) (fileRefSect s))

/-- Modelled from the spec: the `path` field of the file-reference record
with identifier `1A0000<id6>`, with surrounding quotes stripped (the manifest
format quotes a path containing `/`). -/
def parsedPath (id6 s : List Char) : List Char :=
  let v := upToSub (";").data
    (afterSub ("path = ").data
      (afterSub (("1A0000").data ++ id6 ++ (" /* ").data) (fileRefSect s)))
  if isPre ("\"").data v then upToSub ("\"").data (v.drop 1) else v


/-- The `PBXFileReference` section sentinel comment. -/
def frSentStr : List Char := ("/* End PBXFileReference section */").data

/-- The `PBXBuildFile` section sentinel comment. -/
def bfSentStr : List Char := ("/* End PBXBuildFile section */").data

/-- Brace balance of a document: occurrences of `{` minus occurrences of `}`. -/
def bal (s : List Char) : Int :=
  (cnt '\x7b' s : Int) - (cnt '\x7d' s : Int)

/-- Output of `add_cost_metrics.py` on the representative manifest. -/
def costOut : List Char := add_cost_metrics uuidA uuidB minDoc

/-- Output of a second run of `add_cost_metrics.py` (fresh draws) on `costOut`. -/
def costOut2 : List Char := add_cost_metrics uuidC uuidD costOut

/-- Output of `add_splash_screen.py` on its representative manifest. -/
def splashOut : List Char := add_splash_screen uuidA uuidB minDocSplash

/-- Output of `add_cost_metrics.py` on the manifest missing the group anchor. -/
def c1Out : List Char := add_cost_metrics uuidA uuidB docNoServices

/-- Output of `add_to_build_phase.py` on the manifest missing the sources anchor. -/
def c2Out : List Char := add_to_build_phase uuids5 docNoSources

/-- Output of `add_cost_metrics.py` on the manifest already holding `1A0000ABCABC`. -/
def c5Out : List Char := add_cost_metrics uuidA uuidB docCollide

/-- Output of `add_cost_metrics.py` on the overlapping-sentinel document. -/
def c7Out : List Char := add_cost_metrics uuidA uuidB docOverlap

/-- Output of `add_pipeline.py` on `docBF19`. -/
def pipeOut : List Char := add_pipeline uuidP uuidPB docBF19

/-- Output of `add_files_to_project.py` on `docBF19`. -/
def ftpOut : List Char := add_files_to_project uuidM uuidMB moduleUuids docBF19

/-! ## General lemmas about the engine -/

theorem head_mem_of_head? {α : Type} {l : List α} {a : α}
    (h : l.head? = some a) : a ∈ l := by
  cases l with
  | nil => simp at h
  | cons b bs =>
    simp [List.head?] at h
    subst h
    exact List.mem_cons_self b bs

theorem lenAux_eq (s : List Char) : ∀ n, lenAux n s = n + s.length := by
  induction s with
  | nil => intro n; simp [lenAux]
  | cons c r ih => intro n; simp [lenAux, ih]; omega

theorem len_eq (s : List Char) : len s = s.length := by
  simp [len, lenAux_eq]

theorem isPre_eq : ∀ (p s : List Char), isPre p s = true → s = p ++ s.drop p.length := by
  intro p
  induction p with
  | nil => intro s _; simp
  | cons a as ih =>
    intro s h
    cases s with
    | nil => simp [isPre] at h
    | cons b bs =>
      simp only [isPre, Bool.and_eq_true, decide_eq_true_eq] at h
      obtain ⟨h1, h2⟩ := h
      subst h1
      have := ih bs h2
      simpa [List.length_cons] using congrArg (a :: ·) this

theorem tokSplits_append {t : Tok} {s m r : List Char}
    (h : (m, r) ∈ tokSplits t s) : s = m ++ r := by
  cases t with
  | lit l =>
    by_cases hp : isPre l s
    · simp [tokSplits, hp] at h
      obtain ⟨h1, h2⟩ := h
      rw [h1, h2]
      exact isPre_eq l s hp
    · simp [tokSplits, hp] at h
  | plus p =>
    simp only [tokSplits, List.mem_map] at h
    obtain ⟨k, _, h2⟩ := h
    obtain ⟨h3, h4⟩ := Prod.mk.injEq .. ▸ h2
    subst h3; subst h4
    exact (List.take_append_drop k s).symm
  | star p =>
    simp only [tokSplits, List.mem_map] at h
    obtain ⟨k, _, h2⟩ := h
    obtain ⟨h3, h4⟩ := Prod.mk.injEq .. ▸ h2
    subst h3; subst h4
    exact (List.take_append_drop k s).symm

theorem seqSplits_append : ∀ (ts : List Tok) (s m r : List Char),
    (m, r) ∈ seqSplits ts s → s = m ++ r := by
  intro ts
  induction ts with
  | nil =>
    intro s m r h
    simp [seqSplits] at h
    obtain ⟨h1, h2⟩ := h
    subst h1; subst h2; simp
  | cons t ts ih =>
    intro s m r h
    simp only [seqSplits, List.mem_flatMap, List.mem_map] at h
    obtain ⟨p, hp, q, hq, heq⟩ := h
    obtain ⟨h3, h4⟩ := Prod.mk.injEq .. ▸ heq
    subst h3; subst h4
    have e1 := tokSplits_append hp
    have e2 := ih p.2 q.1 q.2 hq
    rw [e1, e2, List.append_assoc]

theorem groupSplits_append : ∀ (gs : List (List Tok)) (s : List Char)
    (caps : List (List Char)) (r : List Char),
    (caps, r) ∈ groupSplits gs s → s = caps.flatten ++ r ∧ caps.length = gs.length := by
  intro gs
  induction gs with
  | nil =>
    intro s caps r h
    simp [groupSplits] at h
    obtain ⟨h1, h2⟩ := h
    subst h1; subst h2; simp
  | cons g gs ih =>
    intro s caps r h
    simp only [groupSplits, List.mem_flatMap, List.mem_map] at h
    obtain ⟨p, hp, q, hq, heq⟩ := h
    obtain ⟨h3, h4⟩ := Prod.mk.injEq .. ▸ heq
    subst h3; subst h4
    have e1 := seqSplits_append g s p.1 p.2 hp
    have e2 := ih p.2 q.1 q.2 hq
    constructor
    · rw [e1, e2.1, List.flatten_cons, List.append_assoc]
    · simp [e2.2]

theorem matchPat_decomp {pt : Pat} {s : List Char} {caps : List (List Char)}
    {t r : List Char} (h : matchPat pt s = some (caps, t, r)) :
    s = caps.flatten ++ (t ++ r) ∧ caps.length = pt.groups.length := by
  have hmem := head_mem_of_head? h
  simp only [List.mem_flatMap, List.mem_map] at hmem
  obtain ⟨p, hp, q, hq, heq⟩ := hmem
  have h1 : p.1 = caps := congrArg (fun x => x.1) heq
  have h2 : q.1 = t := congrArg (fun x => x.2.1) heq
  have h3 : q.2 = r := congrArg (fun x => x.2.2) heq
  obtain ⟨e1, e2⟩ := groupSplits_append pt.groups s p.1 p.2 hp
  have e3 := seqSplits_append pt.tail p.2 q.1 q.2 hq
  constructor
  · rw [← h1, ← h2, ← h3, e1, e3]
  · rw [← h1]; exact e2

theorem matchPat_single {g : List Tok} {s : List Char} {caps : List (List Char)}
    {t r : List Char} (h : matchPat ⟨[g], []⟩ s = some (caps, t, r)) :
    ∃ c0, caps = [c0] ∧ t = [] ∧ s = c0 ++ r := by
  have hmem := head_mem_of_head? h
  simp only [List.mem_flatMap, List.mem_map] at hmem
  obtain ⟨p, hp, q, hq, heq⟩ := hmem
  have h1 : p.1 = caps := congrArg (fun x => x.1) heq
  have h2 : q.1 = t := congrArg (fun x => x.2.1) heq
  have h3 : q.2 = r := congrArg (fun x => x.2.2) heq
  simp only [seqSplits, List.mem_singleton] at hq
  have hq1 : q.1 = [] := congrArg (fun x => x.1) hq
  have hq2 : q.2 = p.2 := congrArg (fun x => x.2) hq
  obtain ⟨e1, e2⟩ := groupSplits_append [g] s p.1 p.2 hp
  match hc : p.1 with
  | [c0] =>
    refine ⟨c0, ?_, ?_, ?_⟩
    · rw [← h1, hc]
    · rw [← h2, hq1]
    · rw [e1, hc, ← h3, hq2]; simp
  | [] => rw [hc] at e2; simp at e2
  | c0 :: c1 :: cs => rw [hc] at e2; simp at e2

theorem matchPat_lit {X s : List Char} {caps : List (List Char)} {t r : List Char}
    (h : matchPat ⟨[[.lit X]], []⟩ s = some (caps, t, r)) :
    caps = [X] ∧ t = [] ∧ s = X ++ r := by
  by_cases hpre : isPre X s
  · have hv : matchPat ⟨[[.lit X]], []⟩ s = some ([X], [], s.drop X.length) := by
      simp [matchPat, groupSplits, seqSplits, tokSplits, hpre]
    rw [hv] at h
    simp only [Option.some.injEq, Prod.mk.injEq] at h
    obtain ⟨h1, h2, h3⟩ := h
    refine ⟨h1.symm, h2.symm, ?_⟩
    rw [← h3]
    exact isPre_eq X s hpre
  · simp [matchPat, groupSplits, seqSplits, tokSplits, hpre] at h

theorem cnt_append (c : Char) : ∀ (a b : List Char), cnt c (a ++ b) = cnt c a + cnt c b := by
  intro a b
  induction a with
  | nil => simp [cnt]
  | cons x xs ih => simp [cnt, ih]; omega

theorem bal_append (a b : List Char) : bal (a ++ b) = bal a + bal b := by
  simp only [bal, cnt_append]
  push_cast
  ring

theorem bal_cons (c : Char) (s : List Char) : bal (c :: s) = bal [c] + bal s := by
  have h : c :: s = [c] ++ s := rfl
  rw [h, bal_append]

theorem cnt_zero_of_not_mem {c : Char} : ∀ {s : List Char}, c ∉ s → cnt c s = 0 := by
  intro s
  induction s with
  | nil => intro _; rfl
  | cons a rest ih =>
    intro h
    simp only [List.mem_cons, not_or] at h
    have ha : ¬(a = c) := fun hac => h.1 hac.symm
    simp [cnt, ha, ih h.2]

theorem bal_zero_of_no_braces {u : List Char} (h1 : '\x7b' ∉ u) (h2 : '\x7d' ∉ u)
    (n : Nat) : bal (u.take n) = 0 := by
  have b1 : cnt '\x7b' (u.take n) = 0 :=
    cnt_zero_of_not_mem (fun hm => h1 (List.mem_of_mem_take hm))
  have b2 : cnt '\x7d' (u.take n) = 0 :=
    cnt_zero_of_not_mem (fun hm => h2 (List.mem_of_mem_take hm))
  simp [bal, b1, b2]

/-- Every replacement whose brace balance equals that of the text it replaces
keeps the document's brace balance unchanged, at every fuel. -/
theorem subAllF_bal (pt : Pat) (repl : List (List Char) → List Char)
    (H : ∀ s caps t r, matchPat pt s = some (caps, t, r) →
      bal (repl caps) = bal (caps.flatten ++ t)) :
    ∀ (fuel : Nat) (s : List Char), bal (subAllF pt repl fuel s) = bal s := by
  intro fuel
  induction fuel with
  | zero => intro s; simp [subAllF]
  | succ n ih =>
    intro s
    cases s with
    | nil => simp [subAllF]
    | cons c rest =>
      cases hm : matchPat pt (c :: rest) with
      | none =>
        simp only [subAllF, hm]
        rw [bal_cons, ih, ← bal_cons]
      | some res =>
        obtain ⟨caps, t, rem⟩ := res
        have hd := (matchPat_decomp hm).1
        by_cases hg : len rem < len rest + 1
        · simp only [subAllF, hm, if_pos hg]
          rw [bal_append, H _ _ _ _ hm, ih, hd]
          simp only [bal_append]
          ring
        · simp only [subAllF, hm, if_neg hg]
          rw [bal_cons, ih, ← bal_cons]

/-- Brace-balance preservation for a whole `re.sub` pass. -/
theorem subAll_bal (pt : Pat) (repl : List (List Char) → List Char)
    (H : ∀ s caps t r, matchPat pt s = some (caps, t, r) →
      bal (repl caps) = bal (caps.flatten ++ t)) (s : List Char) :
    bal (subAll pt repl s) = bal s :=
  subAllF_bal pt repl H _ s

/-- A `\1 ++ literal ++ id ++ literal` replacement (the group-child
insertions) balances against its match when the inserted text is
brace-free. -/
theorem balH_g1 {g : List Tok} {A B u : List Char} (h1 : '\x7b' ∉ u)
    (h2 : '\x7d' ∉ u) (hA : bal A = 0) (hB : bal B = 0) :
    ∀ (s : List Char) (caps : List (List Char)) (t r : List Char),
      matchPat ⟨[g], []⟩ s = some (caps, t, r) →
      bal (g1 caps ++ A ++ u.take 6 ++ B) = bal (caps.flatten ++ t) := by
  intro s caps t r h
  obtain ⟨c0, hc, ht, _⟩ := matchPat_single h
  subst hc; subst ht
  simp only [g1, List.getD_cons_zero, List.flatten_cons, List.flatten_nil,
    List.append_nil, bal_append]
  rw [bal_zero_of_no_braces h1 h2, hA, hB]
  ring

/-- A constant replacement whose balance equals that of the literal pattern
(the sentinel re-insertions) balances against its match. -/
theorem balH_lit {X T : List Char} (hT : bal T = bal X) :
    ∀ (s : List Char) (caps : List (List Char)) (t r : List Char),
      matchPat ⟨[[.lit X]], []⟩ s = some (caps, t, r) →
      bal T = bal (caps.flatten ++ t) := by
  intro s caps t r h
  obtain ⟨hc, ht, _⟩ := matchPat_lit h
  subst hc; subst ht
  simpa using hT

theorem bal_costFileRef {u : List Char} (h1 : '\x7b' ∉ u) (h2 : '\x7d' ∉ u) :
    bal (costFileRef u) = 0 := by
  simp only [costFileRef, bal_append]
  rw [bal_zero_of_no_braces h1 h2]
  have e1 : bal (("\n\t\t1A0000").data) = 0 := by decide
  have e2 : bal ((" /* CostMetricsManager.swift */ = \x7bisa = PBXFileReference; lastKnownFileType = sourcecode.swift; path = CostMetricsManager.swift; sourceTree = \"<group>\"; \x7d;").data) = 0 := by decide
  rw [e1, e2]
  norm_num

theorem bal_costBuildFile {u2 u1 : List Char} (h1 : '\x7b' ∉ u2) (h2 : '\x7d' ∉ u2)
    (h3 : '\x7b' ∉ u1) (h4 : '\x7d' ∉ u1) : bal (costBuildFile u2 u1) = 0 := by
  simp only [costBuildFile, bal_append]
  rw [bal_zero_of_no_braces h1 h2, bal_zero_of_no_braces h3 h4]
  have e1 : bal (("\n\t\t1A0000").data) = 0 := by decide
  have e2 : bal ((" /* CostMetricsManager.swift in Sources */ = \x7bisa = PBXBuildFile; fileRef = 1A0000").data) = 1 := by decide
  have e3 : bal ((" /* CostMetricsManager.swift */; \x7d;").data) = -1 := by decide
  rw [e1, e2, e3]
  norm_num

theorem bal_splashFileRef {u : List Char} (h1 : '\x7b' ∉ u) (h2 : '\x7d' ∉ u) :
    bal (splashFileRef u) = 0 := by
  simp only [splashFileRef, bal_append]
  rw [bal_zero_of_no_braces h1 h2]
  have e1 : bal (("\n\t\t1A0000").data) = 0 := by decide
  have e2 : bal ((" /* SplashScreenView.swift */ = \x7bisa = PBXFileReference; lastKnownFileType = sourcecode.swift; path = \"DirectorStudio/Components/SplashScreenView.swift\"; sourceTree = \"<group>\"; \x7d;").data) = 0 := by decide
  rw [e1, e2]
  norm_num

theorem bal_splashBuildFile {u2 u1 : List Char} (h1 : '\x7b' ∉ u2) (h2 : '\x7d' ∉ u2)
    (h3 : '\x7b' ∉ u1) (h4 : '\x7d' ∉ u1) : bal (splashBuildFile u2 u1) = 0 := by
  simp only [splashBuildFile, bal_append]
  rw [bal_zero_of_no_braces h1 h2, bal_zero_of_no_braces h3 h4]
  have e1 : bal (("\n\t\t1A0000").data) = 0 := by decide
  have e2 : bal ((" /* SplashScreenView.swift in Sources */ = \x7bisa = PBXBuildFile; fileRef = 1A0000").data) = 1 := by decide
  have e3 : bal ((" /* SplashScreenView.swift */; \x7d;").data) = -1 := by decide
  rw [e1, e2, e3]
  norm_num

/-- `add_cost_metrics.py` preserves the brace balance of every document,
for brace-free identifier draws (as `uuid4` hex draws always are). -/
theorem add_cost_metrics_bal (u1 u2 doc : List Char)
    (h1 : '\x7b' ∉ u1) (h2 : '\x7d' ∉ u1) (h3 : '\x7b' ∉ u2) (h4 : '\x7d' ∉ u2) :
    bal (add_cost_metrics u1 u2 doc) = bal doc := by
  have HG : ∀ (s : List Char) (caps : List (List Char)) (t r : List Char),
      matchPat servicesGroupPat s = some (caps, t, r) →
      bal (servicesRepl u1 caps) = bal (caps.flatten ++ t) :=
    fun s caps t r h => balH_g1 h1 h2 (by decide) (by decide) s caps t r h
  have HF : ∀ (s : List Char) (caps : List (List Char)) (t r : List Char),
      matchPat fileRefSentPat s = some (caps, t, r) →
      bal ((fun _ => costFileRef u1 ++ ("\n\n/* End PBXFileReference section */").data) caps)
        = bal (caps.flatten ++ t) := by
    refine balH_lit ?_
    rw [bal_append, bal_costFileRef h1 h2]
    decide
  have HS : ∀ (s : List Char) (caps : List (List Char)) (t r : List Char),
      matchPat sourcesAnchorPat s = some (caps, t, r) →
      bal (costSourcesRepl u2 caps) = bal (caps.flatten ++ t) :=
    fun s caps t r h => balH_g1 h3 h4 (by decide) (by decide) s caps t r h
  have HB : ∀ (s : List Char) (caps : List (List Char)) (t r : List Char),
      matchPat buildFileSentPat s = some (caps, t, r) →
      bal ((fun _ => costBuildFile u2 u1 ++ ("\n\n/* End PBXBuildFile section */").data) caps)
        = bal (caps.flatten ++ t) := by
    refine balH_lit ?_
    rw [bal_append, bal_costBuildFile h3 h4 h1 h2]
    decide
  show bal (subAll buildFileSentPat
      (fun _ => costBuildFile u2 u1 ++ ("\n\n/* End PBXBuildFile section */").data)
      (subAll sourcesAnchorPat (costSourcesRepl u2)
        (subAll fileRefSentPat
          (fun _ => costFileRef u1 ++ ("\n\n/* End PBXFileReference section */").data)
          (subAll servicesGroupPat (servicesRepl u1) doc)))) = bal doc
  rw [subAll_bal _ _ HB, subAll_bal _ _ HS, subAll_bal _ _ HF, subAll_bal _ _ HG]

/-- `add_splash_screen.py` preserves the brace balance of every document,
for brace-free identifier draws. -/
theorem add_splash_screen_bal (u1 u2 doc : List Char)
    (h1 : '\x7b' ∉ u1) (h2 : '\x7d' ∉ u1) (h3 : '\x7b' ∉ u2) (h4 : '\x7d' ∉ u2) :
    bal (add_splash_screen u1 u2 doc) = bal doc := by
  have HG : ∀ (s : List Char) (caps : List (List Char)) (t r : List Char),
      matchPat componentsGroupPat s = some (caps, t, r) →
      bal (componentsRepl u1 caps) = bal (caps.flatten ++ t) :=
    fun s caps t r h => balH_g1 h1 h2 (by decide) (by decide) s caps t r h
  have HF : ∀ (s : List Char) (caps : List (List Char)) (t r : List Char),
      matchPat fileRefSentPat s = some (caps, t, r) →
      bal ((fun _ => splashFileRef u1 ++ ("\n\n/* End PBXFileReference section */").data) caps)
        = bal (caps.flatten ++ t) := by
    refine balH_lit ?_
    rw [bal_append, bal_splashFileRef h1 h2]
    decide
  have HS : ∀ (s : List Char) (caps : List (List Char)) (t r : List Char),
      matchPat sourcesAnchorPat s = some (caps, t, r) →
      bal (splashSourcesRepl u2 caps) = bal (caps.flatten ++ t) :=
    fun s caps t r h => balH_g1 h3 h4 (by decide) (by decide) s caps t r h
  have HB : ∀ (s : List Char) (caps : List (List Char)) (t r : List Char),
      matchPat buildFileSentPat s = some (caps, t, r) →
      bal ((fun _ => splashBuildFile u2 u1 ++ ("\n\n/* End PBXBuildFile section */").data) caps)
        = bal (caps.flatten ++ t) := by
    refine balH_lit ?_
    rw [bal_append, bal_splashBuildFile h3 h4 h1 h2]
    decide
  show bal (subAll buildFileSentPat
      (fun _ => splashBuildFile u2 u1 ++ ("\n\n/* End PBXBuildFile section */").data)
      (subAll sourcesAnchorPat (splashSourcesRepl u2)
        (subAll fileRefSentPat
          (fun _ => splashFileRef u1 ++ ("\n\n/* End PBXFileReference section */").data)
          (subAll componentsGroupPat (componentsRepl u1) doc)))) = bal doc
  rw [subAll_bal _ _ HB, subAll_bal _ _ HS, subAll_bal _ _ HF, subAll_bal _ _ HG]

/-! ## Claim theorems -/

/-- C1: on a document whose `Services` group anchor does not match, the
cost-metrics patch does not fail and does not leave the document unmodified:
it silently applies exactly the insertions whose anchors did match (the
file-reference, sources-entry and build-file insertions) while skipping the
group-child insertion.  The script's transformation is a total function into
plain text with no error outcome at all, so `AnchorNotFound` is never
reported.  This refutes the claim's required behaviour on the code. -/
theorem c1_unmatched_anchor_silently_applied :
    hasMatch servicesGroupPat docNoServices = false ∧
    c1Out ≠ docNoServices ∧
    hasSub (("1A0000ABCABC /* CostMetricsManager.swift */ = \x7bisa = PBXFileReference").data) c1Out = true ∧
    hasSub (("1A0000ABCABC /* CostMetricsManager.swift */,").data) c1Out = false ∧
    hasSub (("1A0000DEFDEF /* CostMetricsManager.swift in Sources */,").data) c1Out = true := by
  decide

/-- C2: on a batch run of `add_to_build_phase.py` over a manifest whose
sources anchor matches nowhere (a structural failure for every file in the
batch), the content written back is nevertheless modified: all five
build-file records are registered while not a single sources-list entry is
added, i.e. the batch is partially applied and written instead of aborting
with the manifest untouched. -/
theorem c2_structural_failure_still_writes :
    hasMatch sourcesAnchorPat docNoSources = false ∧
    c2Out ≠ docNoSources ∧
    hasSub (("1A0000565656 /* Models.swift in Sources */ = \x7bisa = PBXBuildFile; fileRef = 1A00002835AC /* Models.swift */; \x7d;").data) c2Out = true ∧
    hasSub (("1A00009A9A9A /* PromptPackagingModule.swift in Sources */ = \x7bisa = PBXBuildFile; fileRef = 1A0000760A32 /* PromptPackagingModule.swift */; \x7d;").data) c2Out = true ∧
    countSub ((" in Sources */,").data) c2Out = 0 := by
  decide

/-- C3: applying the cost-metrics patch twice to the representative manifest
is neither rejected nor idempotent: the twice-patched document carries two
file-reference records, two build-file records, two group children and two
sources entries for `CostMetricsManager.swift`, where a single application
produces exactly one of each. -/
theorem c3_double_apply_duplicates :
    countSub (("/* CostMetricsManager.swift */ = \x7bisa = PBXFileReference").data) costOut2 = 2 ∧
    countSub (("/* CostMetricsManager.swift in Sources */ = \x7bisa = PBXBuildFile").data) costOut2 = 2 ∧
    countSub (("/* CostMetricsManager.swift */,").data) costOut2 = 2 ∧
    countSub (("/* CostMetricsManager.swift in Sources */,").data) costOut2 = 2 ∧
    countSub (("/* CostMetricsManager.swift */ = \x7bisa = PBXFileReference").data) costOut = 1 := by
  decide

/-- C5: identifier allocation is not verified against the document: when the
random draw starts with `ABCABC` and the document already contains a record
with identifier `1A0000ABCABC`, the patched document uses that same
identifier for the new records (four occurrences: the pre-existing record,
the new file reference, the new group child, and the build-file back
reference), so the freshly allocated identifier collides with a pre-existing
identifier. -/
theorem c5_truncated_id_collision :
    hasSub (("1A0000ABCABC").data) docCollide = true ∧
    countSub (("1A0000ABCABC").data) docCollide = 1 ∧
    countSub (("1A0000ABCABC").data) c5Out = 4 := by
  decide

/-- C4 (counterexample): in the document patched by `add_splash_screen.py`
the new file-reference record has identifier `1A0000ABCABC`, but the entry
added to the sources files list carries the build-file identifier
`1A0000DEFDEF` and the file-reference identifier does not occur in the
sources files list at all — so the sources entry does not reference the
file-reference's identifier as the claim states. -/
theorem c4_sources_entry_not_fileref_id :
    hasSub (("1A0000ABCABC /* SplashScreenView.swift */ = \x7bisa = PBXFileReference").data) splashOut = true ∧
    hasSub (("1A0000DEFDEF /* SplashScreenView.swift in Sources */,").data) (srcFilesSect splashOut) = true ∧
    hasSub (("1A0000ABCABC").data) (srcFilesSect splashOut) = false := by
  decide

/-- C4 (amended): for the splash descriptor on the representative manifest,
the patched document contains exactly one file-reference record, one
build-file record, one group child and one sources entry; the group child
and the build-file's `fileRef` field reference the file-reference's
identifier, and the sources entry references the build-file record's
identifier, which in turn references the file reference. -/
theorem c4_amended_four_records :
    countSub (("/* SplashScreenView.swift */ = \x7bisa = PBXFileReference").data) splashOut = 1 ∧
    countSub (("/* SplashScreenView.swift in Sources */ = \x7bisa = PBXBuildFile").data) splashOut = 1 ∧
    countSub (("1A0000ABCABC /* SplashScreenView.swift */,").data) splashOut = 1 ∧
    countSub (("1A0000DEFDEF /* SplashScreenView.swift in Sources */,").data) splashOut = 1 ∧
    hasSub (("fileRef = 1A0000ABCABC /* SplashScreenView.swift */").data) splashOut = true ∧
    hasSub (("1A0000ABCABC /* SplashScreenView.swift */,").data) (childrenSect splashOut) = true ∧
    hasSub (("1A0000DEFDEF /* SplashScreenView.swift in Sources */,").data) (srcFilesSect splashOut) = true := by
  decide

/-- C6 (counterexample): the four records added by `add_splash_screen.py` do
not reference a single shared fresh identifier: the group child carries
`1A0000ABCABC` while the sources entry carries `1A0000DEFDEF`, and neither
list carries the other identifier. -/
theorem c6_no_single_shared_id :
    hasSub (("1A0000ABCABC /* SplashScreenView.swift */,").data) splashOut = true ∧
    hasSub (("1A0000DEFDEF /* SplashScreenView.swift in Sources */,").data) splashOut = true ∧
    hasSub (("1A0000ABCABC /* SplashScreenView.swift in Sources */,").data) splashOut = false ∧
    hasSub (("1A0000DEFDEF /* SplashScreenView.swift */,").data) splashOut = false := by
  decide

/-- C6 (amended): the scenario of the claim holds with two fresh identifiers
instead of one shared identifier: the file reference and the group child
share `1A0000ABCABC`, the build file and the sources entry share
`1A0000DEFDEF`, the build file's `fileRef` field points at the file
reference, and the pre-existing group child and sources entry are
byte-identical and still first in their lists. -/
theorem c6_amended_two_ids_preserved_order :
    countSub (("/* SplashScreenView.swift */ = \x7bisa = PBXFileReference").data) splashOut = 1 ∧
    countSub (("/* SplashScreenView.swift in Sources */ = \x7bisa = PBXBuildFile").data) splashOut = 1 ∧
    hasSub (("fileRef = 1A0000ABCABC /* SplashScreenView.swift */").data) splashOut = true ∧
    isPre (("\n\t\t\t\t1A000035 /* SceneCard.swift */,").data) (childrenSect splashOut) = true ∧
    isPre (("\n\t\t\t\t1A000003 /* ContentView.swift in Sources */,").data) (srcFilesSect splashOut) = true := by
  decide

/-- C8: parsing the `PBXFileReference` section of the patched documents back
out recovers the hard-coded descriptor of each script exactly: display name
`CostMetricsManager.swift` with path `CostMetricsManager.swift` for the
cost-metrics script, and display name `SplashScreenView.swift` with path
`DirectorStudio/Components/SplashScreenView.swift` for the splash script. -/
theorem c8_roundtrip_name_path :
    parsedName (("ABCABC").data) costOut = ("CostMetricsManager.swift").data ∧
    parsedPath (("ABCABC").data) costOut = ("CostMetricsManager.swift").data ∧
    parsedName (("ABCABC").data) splashOut = ("SplashScreenView.swift").data ∧
    parsedPath (("ABCABC").data) splashOut = ("DirectorStudio/Components/SplashScreenView.swift").data := by
  decide

/-- C9: every substitution anchored on the `PBXBuildFile` record `1A000019`
inserts its new record text immediately after that record: in the pipeline
script's output the new build-file record follows the anchor record inside
the `PBXBuildFile` section and appears neither in the sources files list nor
in the `PBXFileReference` section; in the files-to-project script's output
the new file-reference records also land inside the `PBXBuildFile` section
(immediately after the anchor) rather than in the `PBXFileReference`
section, and no new entry reaches the sources files list. -/
theorem c9_bf19_insertion_placement :
    hasSub (bf19Rec ++ pipelineBuildFile uuidPB uuidP) pipeOut = true ∧
    hasSub (("1A0000888888 /* DirectorStudioPipeline.swift in Sources */ = \x7bisa = PBXBuildFile").data) (buildFileSect pipeOut) = true ∧
    hasSub (("1A0000888888").data) (srcFilesSect pipeOut) = false ∧
    hasSub (("1A0000888888").data) (fileRefSect pipeOut) = false ∧
    hasSub (bf19Rec ++ ("\n\t\t1A0000ABABAB /* PromptPackagingModule.swift */").data) ftpOut = true ∧
    hasSub (("/* Models.swift */ = \x7bisa = PBXFileReference").data) (buildFileSect ftpOut) = true ∧
    hasSub (("/* Models.swift */ = \x7bisa = PBXFileReference").data) (fileRefSect ftpOut) = false ∧
    hasSub (("/* Models.swift in Sources */ = \x7bisa = PBXBuildFile").data) (buildFileSect ftpOut) = true ∧
    hasSub (("1A0000222222").data) (srcFilesSect ftpOut) = false := by
  decide

/-- C7 (counterexample): on a brace-balanced document in which both
sentinels occur but overlap by one character, the cost-metrics patch
destroys the `PBXBuildFile` sentinel: the claim that every input with intact
sentinels yields an output with intact sentinels is false as stated. -/
theorem c7_overlapping_sentinel_lost :
    hasSub bfSentStr docOverlap = true ∧
    hasSub frSentStr docOverlap = true ∧
    cnt '\x7b' docOverlap = cnt '\x7d' docOverlap ∧
    hasSub bfSentStr c7Out = false := by
  decide

/-- C7 (amended): the cost-metrics and splash patches preserve overall brace
balance on every input document (the inserted identifiers are hexadecimal,
hence brace-free); and on representative manifests, where no sentinel
occurrence overlaps another anchor's match, both section sentinels are still
present in the output. -/
theorem c7_amended_balance_and_sentinels :
    (∀ (u1 u2 doc : List Char), '\x7b' ∉ u1 → '\x7d' ∉ u1 → '\x7b' ∉ u2 → '\x7d' ∉ u2 →
      cnt '\x7b' doc = cnt '\x7d' doc →
      cnt '\x7b' (add_cost_metrics u1 u2 doc) = cnt '\x7d' (add_cost_metrics u1 u2 doc)) ∧
    (∀ (u1 u2 doc : List Char), '\x7b' ∉ u1 → '\x7d' ∉ u1 → '\x7b' ∉ u2 → '\x7d' ∉ u2 →
      cnt '\x7b' doc = cnt '\x7d' doc →
      cnt '\x7b' (add_splash_screen u1 u2 doc) = cnt '\x7d' (add_splash_screen u1 u2 doc)) ∧
    (hasSub frSentStr costOut = true ∧ hasSub bfSentStr costOut = true ∧
     hasSub frSentStr splashOut = true ∧ hasSub bfSentStr splashOut = true) := by
  refine ⟨?_, ?_, ?_⟩
  · intro u1 u2 doc h1 h2 h3 h4 hb
    have hba := add_cost_metrics_bal u1 u2 doc h1 h2 h3 h4
    simp only [bal] at hba
    omega
  · intro u1 u2 doc h1 h2 h3 h4 hb
    have hba := add_splash_screen_bal u1 u2 doc h1 h2 h3 h4
    simp only [bal] at hba
    omega
  · decide

/-- Witness for C7 (amended): the balance-preservation part applied to the
representative manifest and the two concrete hex draws. -/
theorem c7_amended_witness :
    cnt '\x7b' (add_cost_metrics uuidA uuidB minDoc)
      = cnt '\x7d' (add_cost_metrics uuidA uuidB minDoc) :=
  c7_amended_balance_and_sentinels.1 uuidA uuidB minDoc (by decide) (by decide)
    (by decide) (by decide) (by decide)

/-- C10: with the identifier draws fixed, each script's transformation is a
deterministic pure function of the document text alone: two runs on equal
input text produce identical output text. -/
theorem c10_deterministic :
    ∀ (d1 d2 : List Char), d1 = d2 →
      (∀ u1 u2, add_cost_metrics u1 u2 d1 = add_cost_metrics u1 u2 d2) ∧
      (∀ u1 u2, add_splash_screen u1 u2 d1 = add_splash_screen u1 u2 d2) ∧
      (∀ u1 u2, add_pipeline u1 u2 d1 = add_pipeline u1 u2 d2) ∧
      (∀ us, add_to_build_phase us d1 = add_to_build_phase us d2) ∧
      (∀ u1 u2 ms, add_files_to_project u1 u2 ms d1 = add_files_to_project u1 u2 ms d2) := by
  intro d1 d2 h
  subst h
  exact ⟨fun _ _ => rfl, fun _ _ => rfl, fun _ _ => rfl, fun _ => rfl, fun _ _ _ => rfl⟩

/-- Witness for C10: the determinism statement applied to the representative
manifest. -/
theorem c10_deterministic_witness :
    add_cost_metrics uuidA uuidB minDoc = add_cost_metrics uuidA uuidB minDoc :=
  (c10_deterministic minDoc minDoc rfl).1 uuidA uuidB
